import Mathlib

/-!
Verification of the `project_todo` HTTP API (Go, chi + mongo-driver).

Shallow embedding of the coherent source version (the `package main` file
whose handler bodies compile; the repository also holds a malformed
duplicate of the same file). Pure data flow is translated directly;
the mongo collection is modelled as a list of documents with the
collaborator semantics the spec assigns to the storage backend
(`find` / `insertOne` / `updateOne($set, upsert)` / `deleteOne`, filter
always an equality match on `_id`). `log.Fatal` and `log.Panic` are
modelled as abnormal termination outcomes of a handler run; per-request
handler nondeterminism (current time, freshly generated object id,
backend failure) is passed in as explicit parameters.
-/

set_option autoImplicit false

namespace ProjectTodo

/-- Timestamps (`time.Time`) are modelled abstractly as naturals. -/
abbrev Timestamp := Nat

/-- A character accepted by Go's `encoding/hex` decoder. -/
def isHexChar (c : Char) : Bool :=
  (('0' ≤ c) && (c ≤ '9')) || (('a' ≤ c) && (c ≤ 'f')) || (('A' ≤ c) && (c ≤ 'F'))

/-- `primitive.ObjectIDFromHex`: succeeds exactly on 24-character hex
strings (12 decoded bytes). The resulting object id is kept in its hex

form. -/
def objectIDFromHex (s : String) : Option String :=
  if s.length == 24 && s.toList.all isHexChar then some s else none

/-- ASCII whitespace as trimmed by `strings.TrimSpace`. -/
def isSpaceChar (c : Char) : Bool :=
  c == ' ' || c == '\t' || c == '\n' || c == '\r'

/-- `strings.TrimSpace`, applied by the update/delete handlers to the
`{id}` URL parameter. -/
def trimSpace (s : String) : String :=
  String.mk (((s.toList.dropWhile isSpaceChar).reverse.dropWhile isSpaceChar).reverse)

/-- A document stored in the `todo` collection. Mongo documents need not
carry every field of the Go struct, so every field other than `_id` is
optional; `insertOne` of a full `todoModel` fills them all, while an
upserted `$set` document only has the fields the update set. -/
structure Document where
  id : String
  title : Option String
  isCompleted : Option Bool
  createdAt : Option Timestamp
  updatedAt : Option Timestamp
deriving DecidableEq, Repr

/-- The mongo collection, an ordered list of documents. -/
abbrev Collection := List Document

/-- The persisted struct `todoModel` (source lines 70-76): `_id`, title,
is_completed, created_at, updated_at; `IsCompleted` and `CreatedAt`
carry `validate:"required"` tags there. -/
structure todoModel where
  id : String
  title : String
  isCompleted : Bool
  createdAt : Timestamp
  updatedAt : Timestamp
deriving DecidableEq, Repr

/-- The wire struct `todo` (source lines 77-83): same json fields, `_id`
as a display string, and no `validate` tags at all. -/
structure todo where
  id : String
  title : String
  isCompleted : Bool
  createdAt : Timestamp
  updatedAt : Timestamp
deriving DecidableEq, Repr

/-- The Go zero value of the wire struct, the state `var todo todo` is
left in when `json.Decode` fails. -/
def zeroTodo : todo := ⟨"", "", false, 0, 0⟩

/-- Inserting a `todoModel` stores a document with every field present. -/
def todoModel.toDocument (m : todoModel) : Document :=
  ⟨m.id, some m.title, some m.isCompleted, some m.createdAt, some m.updatedAt⟩

/-- Decoding a stored document back into `todoModel` (what `cursor.All`
does in `fetchTodos`): absent fields decode to Go zero values. -/
def Document.toModel (d : Document) : todoModel :=
  ⟨d.id, d.title.getD "", d.isCompleted.getD false, d.createdAt.getD 0, d.updatedAt.getD 0⟩

/-- The `fetchTodos` projection of a `todoModel` onto the wire struct
(`ID.Hex()` is the identity on our hex-string ids). -/
def todoModel.toTodo (m : todoModel) : todo :=
  ⟨m.id, m.title, m.isCompleted, m.createdAt, m.updatedAt⟩

/-- The `validate` tags declared on the wire struct `todo`: none (its
fields carry only `json` tags). -/
def todoValidateTags : List (String × String) := []

/-- The `validate` tags declared on the persisted struct `todoModel`:
`IsCompleted` and `CreatedAt` are `validate:"required"`. -/
def todoModelValidateTags : List (String × String) :=
  [("IsCompleted", "required"), ("CreatedAt", "required")]

/-- go-playground/validator zero-value test for the fields of the wire
struct `todo`. -/
def todoFieldIsZero (t : todo) : String → Bool
  | "ID" => t.id == ""
  | "Title" => t.title == ""
  | "IsCompleted" => t.isCompleted == false
  | "CreatedAt" => t.createdAt == 0
  | "UpdatedAt" => t.updatedAt == 0
  | _ => false

/-- go-playground/validator zero-value test for the fields of the
persisted struct `todoModel`. -/
def todoModelFieldIsZero (m : todoModel) : String → Bool
  | "ID" => m.id == ""
  | "Title" => m.title == ""
  | "IsCompleted" => m.isCompleted == false
  | "CreatedAt" => m.createdAt == 0
  | "UpdatedAt" => m.updatedAt == 0
  | _ => false

/-- A single `validate` tag check: `required` fails exactly on the
field's zero value; there are no other tags in this code base. -/
def checkTag (isZero : String → Bool) (tag : String × String) : Bool :=
  if tag.2 == "required" then !(isZero tag.1) else true

/-- `validate.Struct(&t)` as called by `createTodo` on the wire struct:
checks every declared tag of `todo`. Since `todoValidateTags = []` this
always succeeds. -/
def validateStructTodo (t : todo) : Bool :=
  todoValidateTags.all (checkTag (todoFieldIsZero t))

/-- `validate.Struct` on the persisted struct `todoModel` — never called
by any handler, but this is where the `required` tags actually live. -/
def validateStructTodoModel (m : todoModel) : Bool :=
  todoModelValidateTags.all (checkTag (todoModelFieldIsZero m))

/-! ## Storage backend (collaborator semantics, spec section 6) -/

/-- `collection.DeleteOne(ctx, {_id: oid})`: removes the first matching
document and reports the deleted count (0 or 1). -/
def deleteFirst (oid : String) : Collection → Collection × Nat
  | [] => ([], 0)
  | d :: ds =>
    if d.id = oid then (ds, 1)
    else
      let r := deleteFirst oid ds
      (d :: r.1, r.2)

/-- The `$set` applied by `updateTodo`: title and updated_at only. -/
def applySet (title : String) (now : Timestamp) (d : Document) : Document :=
  { d with title := some title, updatedAt := some now }

/-- Updates the first document matching `oid` with the `$set`, or
returns `none` when no document matches. -/
def updateFirstDoc (oid title : String) (now : Timestamp) : Collection → Option Collection
  | [] => none
  | d :: ds =>
    if d.id = oid then some (applySet title now d :: ds)
    else (updateFirstDoc oid title now ds).map (d :: ·)

/-- `collection.UpdateOne(ctx, {_id: oid}, {$set: {title, updated_at}},
{Upsert: true})`: updates the first match, or — upsert — inserts a fresh
document built from the filter's equality field `_id` plus the `$set`
fields only (no is_completed, no created_at). -/
def updateOneUpsert (c : Collection) (oid title : String) (now : Timestamp) : Collection :=
  match updateFirstDoc oid title now c with
  | some c2 => c2
  | none => c ++ [⟨oid, some title, none, none, some now⟩]

/-! ## Handler outcomes -/

/-- One JSON response written via `rnd.JSON`: HTTP status, the `message`
field of the rendered body (empty when the body has none), and the
`data` list for the list endpoint. -/
structure Response where
  status : Nat
  message : String
  data : List todo
deriving DecidableEq, Repr

/-- A storage call issued by a handler against the shared collection. -/
inductive StorageCall where
  | find
  | insertOne (d : Document)
  | updateOne (oid : String) (setTitle : String) (setUpdatedAt : Timestamp)
  | deleteOne (oid : String)
deriving DecidableEq, Repr

/-- How the handler run ends: normal return, `log.Panic` (the handler
goroutine aborts, no response reaches the client), or `log.Fatal` (the
whole process exits). -/
inductive Termination where
  | normal
  | panicExit
  | fatalExit
deriving DecidableEq, Repr

/-- The observable outcome of one handler run: the JSON responses
written in order, the storage calls issued in order, the collection
state afterwards, and how the run ended. -/
structure HandlerResult where
  responses : List Response
  calls : List StorageCall
  state : Collection
  termination : Termination
deriving DecidableEq, Repr

/-! ## The four pipeline handlers (source lines 143-309) -/

/-- How the `collection.Find` / `cursor.All` pair behaves on a given
run: the query itself fails, the result materialization fails, or both
succeed. -/
inductive FindOutcome where
  | findErr
  | scanErr
  | ok
deriving DecidableEq, Repr

/-- `fetchTodos` (source lines 143-174): `Find` error renders 500
"Failed to fetch todo"; `res.All` error hits `log.Fatal` — the process
dies with no response; otherwise every stored document is decoded into
`todoModel`, mapped to the wire struct, and rendered 200 under `data`. -/
def fetchTodos (st : Collection) (outcome : FindOutcome) : HandlerResult :=
  match outcome with
  | .findErr => ⟨[⟨500, "Failed to fetch todo", []⟩], [.find], st, .normal⟩
  | .scanErr => ⟨[], [.find], st, .fatalExit⟩
  | .ok =>
    ⟨[⟨200, "", st.map (fun d => d.toModel.toTodo)⟩], [.find], st, .normal⟩

/-- `createTodo` (source lines 176-222). `body = none` models a JSON
decode error (the code renders the bare error with status 400, so the
rendered body has no `message` field); then `validate.Struct` on the
tagless wire struct; then the empty-title check; then `InsertOne` of a
fresh full `todoModel` with `IsCompleted=false`, both timestamps `now`
and a server-generated id. `insertFails` tells whether the backend
rejects the insert (500). -/
def createTodo (st : Collection) (body : Option todo) (newId : String) (now : Timestamp)
    (insertFails : Bool) : HandlerResult :=
  match body with
  | none => ⟨[⟨400, "", []⟩], [], st, .normal⟩
  | some t =>
    if !(validateStructTodo t) then
      ⟨[⟨400, "Error parsing your request", []⟩], [], st, .normal⟩
    else if t.title == "" then
      ⟨[⟨400, "Title is required", []⟩], [], st, .normal⟩
    else
      let m : todoModel := ⟨newId, t.title, false, now, now⟩
      if insertFails then
        ⟨[⟨500, "Todo Creation failed", []⟩], [.insertOne m.toDocument], st, .normal⟩
      else
        ⟨[⟨201, "Todo creation successful", []⟩], [.insertOne m.toDocument],
          st ++ [m.toDocument], .normal⟩

/-- `deleteTodo` (source lines 224-253). On a malformed id the code
calls `log.Panic(id)` BEFORE the 400 render, so the handler aborts: the
`rnd.JSON` 400 "Error Parsing your request" below it is unreachable.
On a valid id, `DeleteOne` by `_id`; backend failure renders 500, any
deleted count (including 0) renders 200 "Todo deletion successful". -/
def deleteTodo (st : Collection) (rawId : String) (deleteFails : Bool) : HandlerResult :=
  match objectIDFromHex (trimSpace rawId) with
  | none => ⟨[], [], st, .panicExit⟩
  | some oid =>
    if deleteFails then
      ⟨[⟨500, "Error deleting the todo", []⟩], [.deleteOne oid], st, .normal⟩
    else
      ⟨[⟨200, "Todo deletion successful", []⟩], [.deleteOne oid],
        (deleteFirst oid st).1, .normal⟩

/-- `&(todo.Title) != nil` in the source: the address of a struct field
is never nil in Go, so this operand is constantly true. -/
def addrOfFieldNeverNil : Bool := true

/-- `updateTodo` (source lines 255-309). Order of checks as in the
source: id parse first (400 "Error Parsing your request" and return);
then body decode — on decode error the code renders 400 "Bad request"
but has NO `return`, so execution falls through with the zero-valued
struct; then `if todo.Title != "" || &(todo.Title) != nil`, a condition
that is always true, so the `$set` upsert update always runs and the
`else` 400 "Title is required" branch is dead code. `updateFails` tells
whether the backend rejects the update (500). -/
def updateTodo (st : Collection) (rawId : String) (body : Option todo) (now : Timestamp)
    (updateFails : Bool) : HandlerResult :=
  match objectIDFromHex (trimSpace rawId) with
  | none => ⟨[⟨400, "Error Parsing your request", []⟩], [], st, .normal⟩
  | some oid =>
    let decodeResps : List Response :=
      match body with
      | none => [⟨400, "Bad request", []⟩]
      | some _ => []
    let t : todo := body.getD zeroTodo
    if t.title != "" || addrOfFieldNeverNil then
      if updateFails then
        ⟨decodeResps ++ [⟨500, "Update Failed", []⟩],
          [.updateOne oid t.title now], st, .normal⟩
      else
        ⟨decodeResps ++ [⟨200, "Update Successful", []⟩],
          [.updateOne oid t.title now], updateOneUpsert st oid t.title now, .normal⟩
    else
      ⟨decodeResps ++ [⟨400, "Title is required", []⟩], [], st, .normal⟩

/-! ## Router (source lines 97-141) -/

/-- HTTP methods the routers mention. -/
inductive Method where
  | GET
  | POST
  | PUT
  | PATCH
  | DELETE
deriving DecidableEq, Repr, BEq

/-- The handler a route resolves to. -/
inductive RouteTarget where
  | homeHandler
  | fetchTodos
  | createTodo
  | updateTodo
  | deleteTodo
deriving DecidableEq, Repr, BEq

/-- `todoHandlers` (source lines 132-141): the sub-router mounted at
`/todo` registers GET `/` → fetchTodos, POST `/` → createTodo, PUT
`/{id}` → updateTodo, DELETE `/{id}` → deleteTodo. No PATCH route is
registered on this router. -/
def todoHandlers : List (Method × String × RouteTarget) :=
  [(.GET, "/", .fetchTodos), (.POST, "/", .createTodo),
   (.PUT, "/{id}", .updateTodo), (.DELETE, "/{id}", .deleteTodo)]

/-- The root router (source `main`, lines 100-103): GET `/` →
homeHandler, and `todoHandlers` mounted under the `/todo` prefix (chi
serves the sub-router's `/` route at the bare mount path). -/
def rootRoutes : List (Method × String × RouteTarget) :=
  (Method.GET, "/", RouteTarget.homeHandler) ::
    todoHandlers.map (fun r =>
      (r.1, "/todo" ++ (if r.2.1 = "/" then "" else r.2.1), r.2.2))

/-- Route resolution: the registered target for a method and path
pattern, if any. -/
def route (m : Method) (path : String) : Option RouteTarget :=
  (rootRoutes.find? (fun r => r.1 == m && r.2.1 == path)).map (fun r => r.2.2)

end ProjectTodo

namespace ProjectTodo

/-! ## Helper lemmas about the storage model -/

/-- `updateOne`'s first-match search finds nothing when no stored
document carries the filtered id. -/
theorem updateFirstDoc_eq_none (oid title : String) (now : Timestamp) (c : Collection)
    (h : ∀ d ∈ c, d.id ≠ oid) : updateFirstDoc oid title now c = none := by
  induction c with
  | nil => rfl
  | cons d ds ih =>
    have hd : d.id ≠ oid := h d (List.mem_cons_self d ds)
    simp [updateFirstDoc, hd, ih (fun e he => h e (List.mem_cons_of_mem d he))]

/-- `updateOne` applied to a collection split around the first matching
document rewrites exactly that document. -/
theorem updateFirstDoc_append (oid title : String) (now : Timestamp)
    (pre post : Collection) (d : Document)
    (hd : d.id = oid) (hpre : ∀ e ∈ pre, e.id ≠ oid) :
    updateFirstDoc oid title now (pre ++ d :: post) =
      some (pre ++ applySet title now d :: post) := by
  induction pre with
  | nil => simp [updateFirstDoc, hd]
  | cons e es ih =>
    have he : e.id ≠ oid := hpre e (List.mem_cons_self e es)
    simp [updateFirstDoc, he, ih (fun x hx => hpre x (List.mem_cons_of_mem e hx))]

/-- `deleteOne` on a collection without the filtered id deletes nothing
and reports a zero count. -/
theorem deleteFirst_of_not_mem (oid : String) (c : Collection)
    (h : ∀ d ∈ c, d.id ≠ oid) : deleteFirst oid c = (c, 0) := by
  induction c with
  | nil => rfl
  | cons d ds ih =>
    have hd : d.id ≠ oid := h d (List.mem_cons_self d ds)
    simp [deleteFirst, hd, ih (fun e he => h e (List.mem_cons_of_mem d he))]

/-- Number of stored documents carrying a given id (the data model keys
the collection by identifier, so a well-formed collection has at most
one per id). -/
def countId (oid : String) : Collection → Nat
  | [] => 0
  | d :: ds => (if d.id = oid then 1 else 0) + countId oid ds

/-- A collection with a zero id-count holds no document with that id. -/
theorem countId_eq_zero {oid : String} {c : Collection} (h : countId oid c = 0) :
    ∀ d ∈ c, d.id ≠ oid := by
  induction c with
  | nil => simp
  | cons e es ih =>
    by_cases he : e.id = oid
    · simp [countId, he] at h
    · intro d hd
      rcases List.mem_cons.mp hd with rfl | hd
      · exact he
      · simp [countId, he] at h
        exact ih h d hd

/-- When the collection holds at most one document with the filtered id
(the data-model key invariant), the collection left by `deleteOne` holds
none. -/
theorem deleteFirst_result_not_mem (oid : String) (c : Collection)
    (h : countId oid c ≤ 1) : ∀ d ∈ (deleteFirst oid c).1, d.id ≠ oid := by
  induction c with
  | nil => simp [deleteFirst]
  | cons e es ih =>
    by_cases he : e.id = oid
    · have h0 : countId oid es = 0 := by
        simp [countId, he] at h
        omega
      simp only [deleteFirst, if_pos he]
      exact countId_eq_zero h0
    · have h1 : countId oid es ≤ 1 := by
        simp [countId, he] at h
        omega
      intro d hd
      simp only [deleteFirst, if_neg he] at hd
      rcases List.mem_cons.mp hd with rfl | hd
      · exact he
      · exact ih h1 d hd

end ProjectTodo

namespace ProjectTodo

/-! ## Claim theorems -/

/-- C1: an update request whose path id parses and whose body carries an
empty title is NOT rejected. The condition
`todo.Title != "" || &(todo.Title) != nil` is always true (a Go field
address is never nil), so the code issues the `$set` update anyway —
overwriting the record's title with "" and refreshing updated_at — and
responds 200 "Update Successful"; the 400 "Title is required" branch is
dead code. Evaluated at a concrete failing input. -/
theorem C1_empty_title_update_goes_through :
    updateTodo [⟨"507f1f77bcf86cd799439011", some "old", some false, some 1, some 1⟩]
        "507f1f77bcf86cd799439011" (some ⟨"", "", false, 0, 0⟩) 42 false =
      ⟨[⟨200, "Update Successful", []⟩],
        [StorageCall.updateOne "507f1f77bcf86cd799439011" "" 42],
        [⟨"507f1f77bcf86cd799439011", some "", some false, some 1, some 42⟩],
        Termination.normal⟩ := by decide

/-- C2: a delete request with a malformed identifier does not respond
400 "Error Parsing your request": `log.Panic(id)` runs before the
render, so the handler aborts with no response written and no storage
call issued; the 400 render below the panic is unreachable. Evaluated
at a concrete failing input. -/
theorem C2_malformed_delete_panics :
    deleteTodo [] "abc" false = ⟨[], [], [], Termination.panicExit⟩ := by decide

/-- C3 counterexample: a create whose title is whitespace-only (" ")
passes the `t.Title == ""` check, is persisted, and yields 201 — the
claimed 400-and-no-insert behavior fails for whitespace-only titles. -/
theorem C3_counterexample :
    (createTodo [] (some ⟨"", " ", true, 5, 0⟩) "a1b2" 7 false).responses =
        [⟨201, "Todo creation successful", []⟩] ∧
    (createTodo [] (some ⟨"", " ", true, 5, 0⟩) "a1b2" 7 false).calls ≠ [] := by decide

/-- C3 (amended): a create whose decoded body carries the empty string
as title yields 400 "Title is required", with no storage call and an
unchanged collection; whitespace-only titles are not rejected. -/
theorem C3_empty_title_create_rejected (st : Collection) (t : todo) (newId : String)
    (now : Timestamp) (insertFails : Bool) (h : t.title = "") :
    createTodo st (some t) newId now insertFails =
      ⟨[⟨400, "Title is required", []⟩], [], st, Termination.normal⟩ := by
  simp [createTodo, validateStructTodo, todoValidateTags, h]

/-- C3 witness: the amended theorem at a concrete empty-title create. -/
theorem C3_empty_title_create_rejected_witness :
    (⟨"", "", true, 5, 5⟩ : todo).title = "" ∧
    createTodo [] (some ⟨"", "", true, 5, 5⟩) "a1b2" 7 false =
      ⟨[⟨400, "Title is required", []⟩], [], [], Termination.normal⟩ :=
  ⟨rfl, C3_empty_title_create_rejected [] ⟨"", "", true, 5, 5⟩ "a1b2" 7 false rfl⟩

/-- C4 counterexample: a decoded payload omitting is_completed and
created_at (left at their Go zero values) passes the struct-validation
step — the wire struct `todo` declares no required fields — and create
proceeds to 201 with an insert instead of the claimed 400 "Error
parsing your request". -/
theorem C4_counterexample :
    validateStructTodo ⟨"", "buy milk", false, 0, 0⟩ = true ∧
    (createTodo [] (some ⟨"", "buy milk", false, 0, 0⟩) "a1b2" 7 false).responses =
      [⟨201, "Todo creation successful", []⟩] ∧
    (createTodo [] (some ⟨"", "buy milk", false, 0, 0⟩) "a1b2" 7 false).calls ≠ [] := by decide

/-- C4 (amended): the `required` tags are declared on the persisted
struct `todoModel`, not on the wire struct `todo`; create validates the
tagless wire struct, so struct validation succeeds for every decoded
payload and create never responds 400 "Error parsing your request". -/
theorem C4_wire_validation_never_fails (st : Collection) (t : todo) (newId : String)
    (now : Timestamp) (insertFails : Bool) :
    validateStructTodo t = true ∧
    ((createTodo st (some t) newId now insertFails).responses.all
      (fun r => r.message != "Error parsing your request")) = true := by
  refine ⟨rfl, ?_⟩
  by_cases h : t.title = ""
  · simp [createTodo, validateStructTodo, todoValidateTags, h]
  · cases insertFails <;>
      simp [createTodo, validateStructTodo, todoValidateTags, h]

/-- C5: an update whose body fails to decode writes the 400 "Bad
request" response but the handler does not return; it then issues the
`$set` update using the zero-valued struct and writes a second, 200
response for the same request — refuting the single-response,
no-storage-call-after-error invariant. Evaluated at a concrete failing
input. -/
theorem C5_decode_error_double_response :
    updateTodo [⟨"507f1f77bcf86cd799439011", some "old", some false, some 1, some 1⟩]
        "507f1f77bcf86cd799439011" none 42 false =
      ⟨[⟨400, "Bad request", []⟩, ⟨200, "Update Successful", []⟩],
        [StorageCall.updateOne "507f1f77bcf86cd799439011" "" 42],
        [⟨"507f1f77bcf86cd799439011", some "", some false, some 1, some 42⟩],
        Termination.normal⟩ := by decide

/-- C6 counterexample: no PATCH route is registered on the mounted
sub-router, so a PATCH request on the id route does not dispatch to the
update handler. -/
theorem C6_counterexample :
    route Method.PATCH "/todo/{id}" ≠ some RouteTarget.updateTodo ∧
    route Method.PATCH "/todo/{id}" = none := by decide

/-- C6 (amended): the router dispatches GET /todo to the list handler,
POST /todo to create, PUT on the id route to update and DELETE on the
id route to delete; PATCH on the id route is not routed at all. -/
theorem C6_routes :
    route Method.GET "/todo" = some RouteTarget.fetchTodos ∧
    route Method.POST "/todo" = some RouteTarget.createTodo ∧
    route Method.PUT "/todo/{id}" = some RouteTarget.updateTodo ∧
    route Method.DELETE "/todo/{id}" = some RouteTarget.deleteTodo ∧
    route Method.PATCH "/todo/{id}" = none := by decide

/-- C7: an update with a parsing id that matches an existing record and
a non-empty body title responds 200, issues exactly one `$set` update,
and rewrites exactly that record's title and updated_at; its id,
is_completed and created_at — and every other record — are unchanged. -/
theorem C7_update_frame (pre post : Collection) (d : Document) (rawId : String) (b : todo)
    (now : Timestamp)
    (hid : objectIDFromHex (trimSpace rawId) = some d.id)
    (hpre : ∀ e ∈ pre, e.id ≠ d.id)
    (htitle : b.title ≠ "") :
    updateTodo (pre ++ d :: post) rawId (some b) now false =
      ⟨[⟨200, "Update Successful", []⟩], [StorageCall.updateOne d.id b.title now],
        pre ++ { d with title := some b.title, updatedAt := some now } :: post,
        Termination.normal⟩ := by
  simp [updateTodo, hid, addrOfFieldNeverNil, updateOneUpsert,
    updateFirstDoc_append d.id b.title now pre post d rfl hpre, applySet]

/-- C7 witness: the frame theorem at a concrete one-record collection. -/
theorem C7_update_frame_witness :
    objectIDFromHex (trimSpace "507f1f77bcf86cd799439011") = some "507f1f77bcf86cd799439011" ∧
    (∀ e ∈ ([] : Collection), e.id ≠ "507f1f77bcf86cd799439011") ∧
    ("new" : String) ≠ "" ∧
    updateTodo [⟨"507f1f77bcf86cd799439011", some "old", some true, some 3, some 3⟩]
        "507f1f77bcf86cd799439011" (some ⟨"", "new", false, 0, 0⟩) 9 false =
      ⟨[⟨200, "Update Successful", []⟩],
        [StorageCall.updateOne "507f1f77bcf86cd799439011" "new" 9],
        [⟨"507f1f77bcf86cd799439011", some "new", some true, some 3, some 9⟩],
        Termination.normal⟩ :=
  ⟨by decide, by simp, by decide,
    C7_update_frame [] [] ⟨"507f1f77bcf86cd799439011", some "old", some true, some 3, some 3⟩
      "507f1f77bcf86cd799439011" ⟨"", "new", false, 0, 0⟩ 9 (by decide) (by simp) (by decide)⟩

/-- C8: a delete whose id parses always responds 200 "Todo deletion
successful" even when zero records match (the collection is then left
unchanged), and — under the data-model invariant of at most one record
per id — deleting the same id twice gives exactly the same outcome and
final state as deleting it once. -/
theorem C8_delete_idempotent (st : Collection) (rawId oid : String)
    (hid : objectIDFromHex (trimSpace rawId) = some oid)
    (huniq : countId oid st ≤ 1) :
    (deleteTodo st rawId false).responses = [⟨200, "Todo deletion successful", []⟩] ∧
    ((∀ d ∈ st, d.id ≠ oid) → (deleteTodo st rawId false).state = st) ∧
    deleteTodo (deleteTodo st rawId false).state rawId false = deleteTodo st rawId false := by
  have hrun : deleteTodo st rawId false =
      ⟨[⟨200, "Todo deletion successful", []⟩], [StorageCall.deleteOne oid],
        (deleteFirst oid st).1, Termination.normal⟩ := by
    simp [deleteTodo, hid]
  refine ⟨by rw [hrun], ?_, ?_⟩
  · intro h
    rw [hrun]
    simp [deleteFirst_of_not_mem oid st h]
  · rw [hrun]
    simp [deleteTodo, hid,
      deleteFirst_of_not_mem oid _ (deleteFirst_result_not_mem oid st huniq)]

/-- C8 witness: the idempotent-delete theorem on the empty collection
(a delete that matches zero records). -/
theorem C8_delete_idempotent_witness :
    objectIDFromHex (trimSpace "507f1f77bcf86cd799439011") = some "507f1f77bcf86cd799439011" ∧
    countId "507f1f77bcf86cd799439011" [] ≤ 1 ∧
    ((deleteTodo [] "507f1f77bcf86cd799439011" false).responses =
        [⟨200, "Todo deletion successful", []⟩] ∧
      ((∀ d ∈ ([] : Collection), d.id ≠ "507f1f77bcf86cd799439011") →
        (deleteTodo [] "507f1f77bcf86cd799439011" false).state = []) ∧
      deleteTodo (deleteTodo [] "507f1f77bcf86cd799439011" false).state
          "507f1f77bcf86cd799439011" false =
        deleteTodo [] "507f1f77bcf86cd799439011" false) :=
  ⟨by decide, by decide,
    C8_delete_idempotent [] "507f1f77bcf86cd799439011" "507f1f77bcf86cd799439011"
      (by decide) (by decide)⟩

/-- C9: on a list request, a failure of the `Find` query yields a
single 500 response and the handler returns normally, whereas a failure
while materializing the cursor (`res.All`) terminates the process via
`log.Fatal` and writes no HTTP response. -/
theorem C9_list_failure_modes (st : Collection) :
    (fetchTodos st FindOutcome.findErr).responses = [⟨500, "Failed to fetch todo", []⟩] ∧
    (fetchTodos st FindOutcome.findErr).termination = Termination.normal ∧
    (fetchTodos st FindOutcome.scanErr).responses = [] ∧
    (fetchTodos st FindOutcome.scanErr).termination = Termination.fatalExit :=
  ⟨rfl, rfl, rfl, rfl⟩

/-- C10: an update whose id parses but matches no stored record — with
a non-empty body title — upserts a fresh document holding only `_id`,
title and updated_at; its is_completed and created_at fields are
absent, so update can create records lacking the full TodoRecord
shape. -/
theorem C10_upsert_inserts_partial_document (st : Collection) (rawId oid : String) (b : todo)
    (now : Timestamp)
    (hid : objectIDFromHex (trimSpace rawId) = some oid)
    (hnone : ∀ e ∈ st, e.id ≠ oid)
    (htitle : b.title ≠ "") :
    updateTodo st rawId (some b) now false =
      ⟨[⟨200, "Update Successful", []⟩], [StorageCall.updateOne oid b.title now],
        st ++ [⟨oid, some b.title, none, none, some now⟩], Termination.normal⟩ := by
  simp [updateTodo, hid, addrOfFieldNeverNil, updateOneUpsert,
    updateFirstDoc_eq_none oid b.title now st hnone]

/-- C10 witness: the upsert theorem at the empty collection. -/
theorem C10_upsert_inserts_partial_document_witness :
    objectIDFromHex (trimSpace "aaaaaaaaaaaaaaaaaaaaaaaa") = some "aaaaaaaaaaaaaaaaaaaaaaaa" ∧
    (∀ e ∈ ([] : Collection), e.id ≠ "aaaaaaaaaaaaaaaaaaaaaaaa") ∧
    ("hello" : String) ≠ "" ∧
    updateTodo [] "aaaaaaaaaaaaaaaaaaaaaaaa" (some ⟨"", "hello", false, 0, 0⟩) 6 false =
      ⟨[⟨200, "Update Successful", []⟩],
        [StorageCall.updateOne "aaaaaaaaaaaaaaaaaaaaaaaa" "hello" 6],
        [⟨"aaaaaaaaaaaaaaaaaaaaaaaa", some "hello", none, none, some 6⟩],
        Termination.normal⟩ :=
  ⟨by decide, by simp, by decide,
    C10_upsert_inserts_partial_document [] "aaaaaaaaaaaaaaaaaaaaaaaa" "aaaaaaaaaaaaaaaaaaaaaaaa"
      ⟨"", "hello", false, 0, 0⟩ 6 (by decide) (by simp) (by decide)⟩

end ProjectTodo
